import Mathlib

/-
Verification development for the lg_formater repository: a Django label
generator that ingests tabular files (data_sources), stores templates
(label_templates) and renders per-row label pages into a PDF
(label_generator).  Python code is shallowly embedded: pure fragments become
Lean functions, the stateful generation run becomes explicit state passing,
Python exceptions become Except/Option results, and machine arithmetic is
modelled with Nat/Int/Rat.
-/

/- ### Python string primitives used by the processors -/

/-- Whitespace characters removed by Python str.strip with no argument
(space, tab, newline, carriage return, vertical tab, form feed). -/
def isPyWhitespace (c : Char) : Bool :=
  c == ' ' || c == '\t' || c == '\n' || c == '\r' || c == '\x0b' || c == '\x0c'

/-- Drops trailing whitespace: the reversed drop-while of the reversal. -/
def stripEndList (l : List Char) : List Char :=
  (l.reverse.dropWhile isPyWhitespace).reverse

/-- Python str.strip(): removes leading and trailing whitespace. -/
def pythonStrip (s : String) : String :=
  ⟨stripEndList (s.data.dropWhile isPyWhitespace)⟩

/-- Python str.startswith, on the underlying character lists. -/
def strStartsWith (s pre : String) : Bool :=
  pre.data.isPrefixOf s.data

/- ### data_sources/csv_processor.py: CSVProcessor._save_csv_data -/

/-- Embeds the stored cell value of CSVProcessor._save_csv_data:
the Python expression is the strip of the parsed cell when the cell is
truthy, and the empty string otherwise (None or empty cell). -/
def savedCellValue : Option String → String
  | none => ""
  | some v => if v = "" then "" else pythonStrip v

/-- Boolean check that a string has neither a leading nor a trailing
whitespace character. -/
def noEdgeWhitespace (s : String) : Bool :=
  (match s.data.head? with
    | none => true
    | some c => !isPyWhitespace c) &&
  (match s.data.getLast? with
    | none => true
    | some c => !isPyWhitespace c)

/- ### data_sources/csv_processor.py: CSVProcessor.detect_delimiter -/

/-- The candidate delimiters of detect_delimiter, in source order. -/
def possibleDelimiters : List Char := [',', ';', '\t', '|', ':', ' ']

/-- Python sample.count(d) for a one-character needle. -/
def delimiterCount (sample : String) (d : Char) : Nat :=
  sample.data.count d

/-- Python max(keys, key=f): the first key attaining the maximal value,
realised as a left fold that replaces the best only on a strict increase. -/
def firstArgmax (f : Char → Nat) : List Char → Option Char
  | [] => none
  | d :: rest => some (rest.foldl (fun best x => if f best < f x then x else best) d)

/-- Embeds CSVProcessor.detect_delimiter on an already-decoded sample:
count each candidate, take the first maximal one, and fall back to comma
when the maximal count is zero. -/
def detect_delimiter (sample : String) : Char :=
  match firstArgmax (delimiterCount sample) possibleDelimiters with
  | none => ','
  | some best => if delimiterCount sample best = 0 then ',' else best

/- ### data_sources: ingestion outcome model (csv_processor / excel_processor) -/

/-- Dataset status values of DataUploadLog / CSVUploadLog. -/
inductive IngestStatus
  | uploading
  | processing
  | completed
  | error
deriving DecidableEq, Repr

/-- Structured form of the ValidationError messages raised during ingestion:
the empty-file error and the column-count mismatch naming the 1-based row,
the actual cell count and the expected cell count. -/
inductive IngestError
  | fileEmpty
  | schemaMismatch (rowNumber actualColumns expectedColumns : Nat)
deriving DecidableEq, Repr

/-- Final state of one ingestion attempt: the dataset status it leaves
behind and the structured error detail, if any. -/
structure IngestOutcome where
  status : IngestStatus
  errorDetail : Option IngestError
deriving DecidableEq, Repr

/-- columns_count of CSVProcessor.process_csv_file:
len of the first row if rows is truthy, else 0. -/
def csvColumnsCount (rows : List (List String)) : Nat :=
  match rows with
  | [] => 0
  | r :: _ => r.length

/-- columns_count of ExcelProcessor.process_excel_file:
len of the first row if that row is truthy, else 0. -/
def excelColumnsCount (rows : List (List String)) : Nat :=
  match rows with
  | [] => 0
  | r :: _ => if r = [] then 0 else r.length

/-- The consistency loop of both processors: the first row (0-based index
counted from the given offset) whose cell count differs from the expected
one, returned as the 1-based row number together with its actual count. -/
def findColumnMismatch (expected : Nat) : Nat → List (List String) → Option (Nat × Nat)
  | _, [] => none
  | i, row :: rest =>
      if row.length ≠ expected then some (i + 1, row.length)
      else findColumnMismatch expected (i + 1) rest

/-- Embeds CSVProcessor.process_csv_file from the parsed rows onward:
empty input and any column-count mismatch raise, the except-handler turns
the raise into dataset status error, otherwise the dataset completes. -/
def process_csv_rows (rows : List (List String)) : IngestOutcome :=
  if rows = [] then { status := .error, errorDetail := some .fileEmpty }
  else
    match findColumnMismatch (csvColumnsCount rows) 0 rows with
    | some (rowNumber, actual) =>
        { status := .error,
          errorDetail := some (.schemaMismatch rowNumber actual (csvColumnsCount rows)) }
    | none => { status := .completed, errorDetail := none }

/-- Embeds ExcelProcessor.process_excel_file from the parsed rows onward,
with the same empty-file and column-count checks. -/
def process_excel_rows (rows : List (List String)) : IngestOutcome :=
  if rows = [] then { status := .error, errorDetail := some .fileEmpty }
  else
    match findColumnMismatch (excelColumnsCount rows) 0 rows with
    | some (rowNumber, actual) =>
        { status := .error,
          errorDetail := some (.schemaMismatch rowNumber actual (excelColumnsCount rows)) }
    | none => { status := .completed, errorDetail := none }

/- ### label_generator/pdf_generator.py: LabelPDFGenerator._get_field_value -/

/-- The field-mapping attributes read by _get_field_value
(label_generator/models.py, FieldMapping). -/
structure FieldMappingM where
  dataColumnNumber : Nat
  defaultValue : Option String
  formatString : Option String
  isRequired : Bool
  fieldName : String
deriving DecidableEq, Repr

/-- Structured form of the warning logged by _get_field_value when a format
transform raises, tagged with the template field name. -/
inductive ResolveWarning
  | formatError (fieldName : String)
deriving DecidableEq, Repr

/-- Value of a digit string, most significant first. -/
def digitsToNat (l : List Char) : Nat :=
  l.foldl (fun acc c => acc * 10 + (c.toNat - '0'.toNat)) 0

/-- Python float(str) modelled for plain decimal literals: optional
surrounding whitespace, an optional sign, digits with at most one decimal
point and at least one digit overall.  Exponent, infinity and nan forms do
not occur in the repository and are modelled as failing. -/
def pythonFloat (s : String) : Option ℚ :=
  let t := (pythonStrip s).data
  let signed : ℚ × List Char :=
    match t with
    | [] => (1, [])
    | c :: rest =>
        if c = '-' then (-1, rest) else if c = '+' then (1, rest) else (1, c :: rest)
  let intPart := signed.2.takeWhile Char.isDigit
  let rest := signed.2.dropWhile Char.isDigit
  match rest with
  | [] => if intPart = [] then none else some (signed.1 * digitsToNat intPart)
  | c :: frac =>
      if c = '.' ∧ frac.all Char.isDigit ∧ (intPart ≠ [] ∨ frac ≠ []) then
        some (signed.1 * ((digitsToNat intPart : ℚ) + (digitsToNat frac : ℚ) / 10 ^ frac.length))
      else none

/-- Round to the nearest integer, ties to the even integer, as CPython does
when formatting a value with a fixed-point format spec. -/
def roundHalfEven (x : ℚ) : ℤ :=
  if x - Rat.floor x < 1 / 2 then Rat.floor x
  else if 1 / 2 < x - Rat.floor x then Rat.floor x + 1
  else if Rat.floor x % 2 = 0 then Rat.floor x else Rat.floor x + 1

/-- Decimal digits of n left-padded with zeros to width p. -/
def natPadLeft (p n : Nat) : String :=
  let s := toString n
  ⟨List.replicate (p - s.length) '0'⟩ ++ s

/-- Fixed-point rendering of a nonnegative rational with p decimals. -/
def formatFixedNonneg (p : Nat) (q : ℚ) : String :=
  let n := (roundHalfEven (q * 10 ^ p)).toNat
  if p = 0 then toString n
  else toString (n / 10 ^ p) ++ "." ++ natPadLeft p (n % 10 ^ p)

/-- Python fixed-point float formatting with p decimals, as used by the
number transform of _get_field_value. -/
def formatFixed (p : Nat) (q : ℚ) : String :=
  if q < 0 then "-" ++ formatFixedNonneg p (-q) else formatFixedNonneg p q

/-- Recognises a fixed-point number format spec of the shape dot, digits, f
(such as the .2f the repository uses).  Other float format specs do not
occur in the repository and are modelled as raising. -/
def parseFixedSpec (spec : String) : Option Nat :=
  match spec.data with
  | [] => none
  | c :: rest =>
      if c = '.' ∧ rest.dropLast ≠ [] ∧ rest.dropLast.all Char.isDigit ∧
          rest.getLast? = some 'f' then
        some (digitsToNat rest.dropLast)
      else none

/-- Embeds LabelPDFGenerator._get_field_value.  The row is the mapping from
column number to cell value built by _load_csv_data; a missing column reads
as the empty string.  The date and text transforms call external libraries
(dateutil parsing, str.format) and are passed in as functions returning
none when the library call would raise; the number transform parses a float
and applies the fixed-point spec.  Any transform failure keeps the
pre-transform value and records a warning, and an empty final value is
returned as the empty string. -/
def get_field_value (dateTransform textTransform : String → String → Option String)
    (fm : FieldMappingM) (rowData : Nat → Option String) : String × List ResolveWarning :=
  let value0 := (rowData fm.dataColumnNumber).getD ""
  let value1 :=
    if value0 = "" then
      match fm.defaultValue with
      | some d => if d = "" then value0 else d
      | none => value0
    else value0
  let formatted : String × List ResolveWarning :=
    match fm.formatString with
    | none => (value1, [])
    | some fs =>
        if fs = "" ∨ value1 = "" then (value1, [])
        else if strStartsWith fs "date:" then
          match dateTransform (fs.drop 5) value1 with
          | some v => (v, [])
          | none => (value1, [.formatError fm.fieldName])
        else if strStartsWith fs "number:" then
          match pythonFloat value1 with
          | some q =>
              match parseFixedSpec (fs.drop 7) with
              | some p => (formatFixed p q, [])
              | none => (value1, [.formatError fm.fieldName])
          | none => (value1, [.formatError fm.fieldName])
        else if strStartsWith fs "text:" then
          match textTransform (fs.drop 5) value1 with
          | some v => (v, [])
          | none => (value1, [.formatError fm.fieldName])
        else (value1, [])
  (if formatted.1 = "" then "" else formatted.1, formatted.2)

/- ### label_generator/models.py: LabelGeneration -/

/-- Status values of LabelGeneration. -/
inductive GenStatus
  | pending
  | processing
  | completed
  | failed
  | cancelled
deriving DecidableEq, Repr

/-- Structured form of the ValidationError messages of LabelGeneration.clean. -/
inductive GenCleanError
  | startRowGreaterThanEndRow
  | startRowLessThanOne
  | labelsPerPageLessThanOne
deriving DecidableEq, Repr

/-- Structured form of the reason strings of
LabelGeneration.get_generation_errors. -/
inductive StartReason
  | statusNotPending (current : GenStatus)
  | noFieldMappings
  | dataSourceNotReady (current : IngestStatus)
  | templateInactive
deriving DecidableEq, Repr

/-- Structured form of the ValueError messages raised by
LabelGeneration.start_generation before the generator runs. -/
inductive StartError
  | notPending
  | noFieldMappings
  | dataSourceNotReady
  | templateInactive
deriving DecidableEq, Repr

/-- The LabelGeneration fields the start path and model validation read:
job status, existence of field mappings, the referenced dataset status, the
referenced template active flag, the row range and labels_per_page.
PositiveIntegerField values are Nat; a Python None row bound is none. -/
structure GenerationState where
  status : GenStatus
  hasFieldMappings : Bool
  dataSourceStatus : IngestStatus
  templateIsActive : Bool
  startRow : Nat
  endRow : Option Nat
  labelsPerPage : Nat
  errorMessage : Option String
deriving DecidableEq, Repr

/-- Truthiness of end_row together with start_row > end_row: the first
condition of LabelGeneration.clean reads start_row and self.end_row and
start_row > end_row. -/
def endRowExceeded (g : GenerationState) : Bool :=
  match g.endRow with
  | some e => decide (e ≠ 0) && decide (e < g.startRow)
  | none => false

/-- Embeds LabelGeneration.clean: the sequential ifs guarded by Python
truthiness (a zero or None operand skips its check). -/
def generation_clean (g : GenerationState) : Option GenCleanError :=
  if g.startRow ≠ 0 ∧ endRowExceeded g = true then
    some .startRowGreaterThanEndRow
  else if g.startRow ≠ 0 ∧ g.startRow < 1 then some .startRowLessThanOne
  else if g.labelsPerPage ≠ 0 ∧ g.labelsPerPage < 1 then some .labelsPerPageLessThanOne
  else none

/-- Embeds LabelGeneration.get_generation_errors: the list of reasons
blocking a start, in source order. -/
def get_generation_errors (g : GenerationState) : List StartReason :=
  (if g.status ≠ .pending then [.statusNotPending g.status] else []) ++
  (if g.hasFieldMappings then [] else [.noFieldMappings]) ++
  (if g.dataSourceStatus ≠ .completed then [.dataSourceNotReady g.dataSourceStatus] else []) ++
  (if g.templateIsActive then [] else [.templateInactive])

/-- Embeds LabelGeneration.can_start_generation. -/
def can_start_generation (g : GenerationState) : Bool :=
  decide (g.status = .pending) && g.hasFieldMappings &&
    decide (g.dataSourceStatus = .completed) && g.templateIsActive

/-- Outcome of a start attempt: blocked by a precondition ValueError,
finished with the generated filename, or failed inside the generator with
the exception re-raised. -/
inductive StartOutcome
  | blocked (reason : StartError)
  | finished (filename : String)
  | generationFailed (message : String)
deriving DecidableEq, Repr

/-- Embeds LabelGeneration.start_generation: the four precondition checks
raise before any state is touched; otherwise the PDF generator runs (passed
in as a state transformer returning the filename or the exception), and a
generator exception marks the job failed with the message stored. -/
def start_generation (run : GenerationState → GenerationState × Except String String)
    (g : GenerationState) : GenerationState × StartOutcome :=
  if g.status ≠ GenStatus.pending then (g, .blocked .notPending)
  else if g.hasFieldMappings = false then (g, .blocked .noFieldMappings)
  else if g.dataSourceStatus ≠ IngestStatus.completed then (g, .blocked .dataSourceNotReady)
  else if g.templateIsActive = false then (g, .blocked .templateInactive)
  else
    match run g with
    | (g2, Except.ok filename) => (g2, .finished filename)
    | (g2, Except.error e) =>
        ({ g2 with status := .failed, errorMessage := some e }, .generationFailed e)

/- ### label_templates/models.py: LabelTemplate.clean -/

/-- The geometry fields read by LabelTemplate.clean
(PositiveIntegerField millimetre values). -/
structure LabelTemplateM where
  printWidthMm : Nat
  printHeightMm : Nat
  layoutWidthMm : Nat
  layoutHeightMm : Nat
  marginTopMm : Nat
  marginBottomMm : Nat
  marginLeftMm : Nat
  marginRightMm : Nat
  dpi : Nat
  isActive : Bool
deriving DecidableEq, Repr

/-- Structured form of the ValidationError messages of LabelTemplate.clean. -/
inductive TemplateCleanError
  | printWidthExceedsLayout
  | printHeightExceedsLayout
  | horizontalMarginsPlusPrintExceedLayout
  | verticalMarginsPlusPrintExceedLayout
deriving DecidableEq, Repr

/-- Embeds LabelTemplate.clean: each check is guarded by Python truthiness
of every operand it reads, so a zero margin or dimension skips its check. -/
def template_clean (t : LabelTemplateM) : Option TemplateCleanError :=
  if t.printWidthMm ≠ 0 ∧ t.layoutWidthMm ≠ 0 ∧ t.layoutWidthMm < t.printWidthMm then
    some .printWidthExceedsLayout
  else if t.printHeightMm ≠ 0 ∧ t.layoutHeightMm ≠ 0 ∧ t.layoutHeightMm < t.printHeightMm then
    some .printHeightExceedsLayout
  else if t.marginLeftMm ≠ 0 ∧ t.marginRightMm ≠ 0 ∧ t.layoutWidthMm ≠ 0 ∧
      t.printWidthMm ≠ 0 ∧ t.layoutWidthMm < t.marginLeftMm + t.marginRightMm + t.printWidthMm then
    some .horizontalMarginsPlusPrintExceedLayout
  else if t.marginTopMm ≠ 0 ∧ t.marginBottomMm ≠ 0 ∧ t.layoutHeightMm ≠ 0 ∧
      t.printHeightMm ≠ 0 ∧ t.layoutHeightMm < t.marginTopMm + t.marginBottomMm + t.printHeightMm then
    some .verticalMarginsPlusPrintExceedLayout
  else none

/- ### label_generator/pdf_generator.py: background compositor -/

/-- Python int() on a rational: truncation toward zero. -/
def pyInt (q : ℚ) : ℤ :=
  if 0 ≤ q then Rat.floor q else -(Rat.floor (-q))

/-- The geometry computed by VectorPDFBackground.__init__ for a vector
background: uniform scale, scaled size, centring offsets (points, exact
float arithmetic modelled as rationals). -/
structure VectorBackgroundM where
  scale : ℚ
  newWidth : ℚ
  newHeight : ℚ
  xOffset : ℚ
  yOffset : ℚ
  width : ℚ
  height : ℚ
deriving DecidableEq, Repr

/-- Embeds VectorPDFBackground.__init__ (pdf_generator.py): scale factors
per axis, the minimum as the uniform scale, scaled dimensions and centring
offsets. -/
def mkVectorBackground (originalWidth originalHeight targetWidth targetHeight : ℚ) :
    VectorBackgroundM :=
  let scaleX := targetWidth / originalWidth
  let scaleY := targetHeight / originalHeight
  let s := min scaleX scaleY
  let nw := originalWidth * s
  let nh := originalHeight * s
  { scale := s, newWidth := nw, newHeight := nh,
    xOffset := (targetWidth - nw) / 2, yOffset := (targetHeight - nh) / 2,
    width := targetWidth, height := targetHeight }

/-- The geometry computed by _create_raster_background: pixel sizes and
offsets go through Python int(). -/
structure RasterBackgroundM where
  scale : ℚ
  newWidthPx : ℤ
  newHeightPx : ℤ
  xOffsetPx : ℤ
  yOffsetPx : ℤ
  canvasWidth : ℤ
  canvasHeight : ℤ
deriving DecidableEq, Repr

/-- Embeds LabelPDFGenerator._create_raster_background: uniform scale as
the minimum of the per-axis factors, scaled pixel sizes and centring
offsets truncated with int(), and the blank canvas sized to the truncated
target dimensions. -/
def mkRasterBackground (originalWidthPx originalHeightPx : Nat)
    (targetWidthPt targetHeightPt : ℚ) : RasterBackgroundM :=
  let scaleX := targetWidthPt / originalWidthPx
  let scaleY := targetHeightPt / originalHeightPx
  let s := min scaleX scaleY
  let nw := pyInt (originalWidthPx * s)
  let nh := pyInt (originalHeightPx * s)
  { scale := s, newWidthPx := nw, newHeightPx := nh,
    xOffsetPx := pyInt ((targetWidthPt - nw) / 2),
    yOffsetPx := pyInt ((targetHeightPt - nh) / 2),
    canvasWidth := pyInt targetWidthPt, canvasHeight := pyInt targetHeightPt }

/- ### label_generator/pdf_generator.py: LabelPDFGenerator.generate_pdf -/

/-- Severities of GenerationLog entries written during a run. -/
inductive LogLevel
  | info
  | warning
  | error
deriving DecidableEq, Repr

/-- Structured forms of the log messages generate_pdf writes on its main
path.  rowError is the per-row handler message naming the failing 1-based
row (the exception text is interpolated into the message, not modelled). -/
inductive LogMessage
  | startGeneration
  | loadedRows (count : Nat)
  | rowError (rowNumber : Nat)
  | progressReport (done total : Nat)
  | buildingDocument
  | finished
deriving DecidableEq, Repr

/-- One item appended to the story: the composited background flowable, a
positioned field flowable, or a page break. -/
inductive ContentItem (α : Type)
  | background
  | fieldBlock (a : α)
  | pageBreak
deriving DecidableEq, Repr

/-- Accumulated state of the row loop of generate_pdf. -/
structure LoopAcc (α : Type) where
  story : List (ContentItem α)
  logs : List (LogLevel × LogMessage)
  composites : Nat
  generatedLabels : Nat
  progressPercent : Nat
deriving DecidableEq, Repr

/-- The bounded progress cadence of generate_pdf: every tenth row and the
final row. -/
def progressDue (total i : Nat) : Bool :=
  (i + 1) % 10 == 0 || i == total - 1

/-- One iteration of the row loop of generate_pdf.  _create_page_content
first composites the background (when one was loaded) and then renders the
mapped fields; a field-stage exception is modelled by an error outcome, is
caught by the per-row handler which logs an error naming row i+1, and the
story and progress are left untouched for that row.  The background
composite runs before the field stage, so it is counted in both branches.
On success the page content plus a page break (except after the last row)
are appended and the progress counters are updated at the bounded cadence. -/
def processRow (hasBackground : Bool) (total i : Nat) (acc : LoopAcc α) :
    Except String (List α) → LoopAcc α
  | Except.error _ =>
      { acc with
        composites := acc.composites + (if hasBackground then 1 else 0),
        logs := acc.logs ++ [(LogLevel.error, LogMessage.rowError (i + 1))] }
  | Except.ok items =>
      { story := acc.story ++ (if hasBackground then [ContentItem.background] else []) ++
          items.map ContentItem.fieldBlock ++
          (if i < total - 1 then [ContentItem.pageBreak] else []),
        logs := acc.logs ++ (if progressDue total i then
            [(LogLevel.info, LogMessage.progressReport (i + 1) total)] else []),
        composites := acc.composites + (if hasBackground then 1 else 0),
        generatedLabels := if progressDue total i then i + 1 else acc.generatedLabels,
        progressPercent := if progressDue total i then (i + 1) * 100 / total
          else acc.progressPercent }

/-- The row loop of generate_pdf over the remaining rows, carrying the
0-based index of the next row. -/
def processRows (hasBackground : Bool) (total : Nat) :
    Nat → LoopAcc α → List (Except String (List α)) → LoopAcc α
  | _, acc, [] => acc
  | i, acc, o :: rest =>
      processRows hasBackground total (i + 1) (processRow hasBackground total i acc o) rest

/-- Observable result of one generate_pdf run: final job status, the
document story, the log, and instrumentation counting how often the
background was loaded and how often the scaled composite was built. -/
structure GenerationRun (α : Type) where
  status : GenStatus
  story : List (ContentItem α)
  logs : List (LogLevel × LogMessage)
  compositeCount : Nat
  backgroundLoadCount : Nat
  totalLabels : Nat
  generatedLabels : Nat
  progressPercent : Nat
deriving DecidableEq, Repr

/-- Embeds LabelPDFGenerator.generate_pdf on the path where loading the
data and building the final document succeed (their failures fail the whole
job and are outside the per-row claims).  The run is driven by the loaded
row count and, per row, the outcome of the field-rendering stage of
_create_page_content.  _load_template_background runs exactly once, before
the loop; the scaled background composite is built inside the loop. -/
def generate_pdf (hasBackground : Bool) (rowOutcomes : List (Except String (List α))) :
    GenerationRun α :=
  let total := rowOutcomes.length
  let acc0 : LoopAcc α :=
    { story := [],
      logs := [(LogLevel.info, LogMessage.startGeneration),
        (LogLevel.info, LogMessage.loadedRows total)],
      composites := 0, generatedLabels := 0, progressPercent := 0 }
  let acc := processRows hasBackground total 0 acc0 rowOutcomes
  { status := GenStatus.completed,
    story := acc.story,
    logs := acc.logs ++ [(LogLevel.info, LogMessage.buildingDocument),
      (LogLevel.info, LogMessage.finished)],
    compositeCount := acc.composites,
    backgroundLoadCount := 1,
    totalLabels := total,
    generatedLabels := acc.generatedLabels,
    progressPercent := 100 }

/-- The story contribution of one row: nothing for a failing row, the
background marker, field blocks and trailing page break for a successful
one. -/
def rowChunk (hasBackground : Bool) (total i : Nat) :
    Except String (List α) → List (ContentItem α)
  | Except.error _ => []
  | Except.ok items =>
      (if hasBackground then [ContentItem.background] else []) ++
        items.map ContentItem.fieldBlock ++
        (if i < total - 1 then [ContentItem.pageBreak] else [])

/-- Concatenated story contributions of the rows from index i on. -/
def storyChunks (hasBackground : Bool) (total : Nat) :
    Nat → List (Except String (List α)) → List (ContentItem α)
  | _, [] => []
  | i, o :: rest => rowChunk hasBackground total i o ++ storyChunks hasBackground total (i + 1) rest

/-- The log contribution of one row: the row-tagged error entry for a
failing row, the cadence-gated progress entry for a successful one. -/
def logChunk (total i : Nat) : Except String (List α) → List (LogLevel × LogMessage)
  | Except.error _ => [(LogLevel.error, LogMessage.rowError (i + 1))]
  | Except.ok _ =>
      if progressDue total i then [(LogLevel.info, LogMessage.progressReport (i + 1) total)]
      else []

/-- Concatenated log contributions of the rows from index i on. -/
def logChunks (total : Nat) : Nat → List (Except String (List α)) → List (LogLevel × LogMessage)
  | _, [] => []
  | i, o :: rest => logChunk total i o ++ logChunks total (i + 1) rest

/-- An error-severity log entry. -/
def isErrorEntry (p : LogLevel × LogMessage) : Bool :=
  p.1 == LogLevel.error

/- ### Concrete instances used by the claim theorems -/

/-- The field mapping of end-to-end scenario E: column 1 formatted with the
number transform and spec .2f. -/
def scenarioEMapping : FieldMappingM :=
  { dataColumnNumber := 1, defaultValue := none, formatString := some "number:.2f",
    isRequired := false, fieldName := "price" }

/-- A pending job satisfying every start precondition except having field
mappings. -/
def pendingJobMissingMappings : GenerationState :=
  { status := .pending, hasFieldMappings := false, dataSourceStatus := .completed,
    templateIsActive := true, startRow := 1, endRow := none, labelsPerPage := 1,
    errorMessage := none }

/-- A generator run that always succeeds, standing in for generate_pdf. -/
def runAlwaysOk : GenerationState → GenerationState × Except String String :=
  fun g => ({ g with status := GenStatus.completed }, Except.ok "labels.pdf")

/-- A pending job with start_row 3 and end_row 2 that satisfies every start
precondition. -/
def jobRowsBackwards : GenerationState :=
  { status := .pending, hasFieldMappings := true, dataSourceStatus := .completed,
    templateIsActive := true, startRow := 3, endRow := some 2, labelsPerPage := 1,
    errorMessage := none }

/-- A template whose left margin plus print width overflows the layout
width while the right margin is zero. -/
def lopsidedMarginTemplate : LabelTemplateM :=
  { printWidthMm := 58, printHeightMm := 30, layoutWidthMm := 60, layoutHeightMm := 40,
    marginTopMm := 0, marginBottomMm := 0, marginLeftMm := 5, marginRightMm := 0,
    dpi := 300, isActive := true }

/-- The template of end-to-end scenario B: margins 5, print 50 by 30,
layout 60 by 40, which passes validation. -/
def scenarioBTemplate : LabelTemplateM :=
  { printWidthMm := 50, printHeightMm := 30, layoutWidthMm := 60, layoutHeightMm := 40,
    marginTopMm := 5, marginBottomMm := 5, marginLeftMm := 5, marginRightMm := 5,
    dpi := 300, isActive := true }

/-- Row outcomes of a three-row run whose middle row raises. -/
def demoRowOutcomes : List (Except String (List Nat)) :=
  [Except.ok [0], Except.error "boom", Except.ok [1]]


/- ### Helper lemmas on dropWhile, strip and the argmax fold -/

theorem head?_dropWhile_false (p : α → Bool) :
    ∀ (l : List α) (c : α), (l.dropWhile p).head? = some c → p c = false := by
  intro l
  induction l with
  | nil => intro c h; simp [List.dropWhile] at h
  | cons a t ih =>
      intro c h
      rw [List.dropWhile_cons] at h
      by_cases ha : p a
      · rw [if_pos ha] at h
        exact ih c h
      · rw [if_neg ha] at h
        simp only [List.head?_cons, Option.some.injEq] at h
        rw [← h]
        exact Bool.eq_false_iff.mpr ha

theorem head?_of_isPrefix {l₁ l₂ : List α} (h : l₁ <+: l₂) {c : α}
    (hc : l₁.head? = some c) : l₂.head? = some c := by
  obtain ⟨t, rfl⟩ := h
  cases l₁ with
  | nil => simp at hc
  | cons a l => simpa using hc

theorem stripEndList_isPrefix (l : List Char) : stripEndList l <+: l := by
  have h := List.dropWhile_suffix (l := l.reverse) (p := isPyWhitespace)
  have h2 : (l.reverse.dropWhile isPyWhitespace).reverse <+: l.reverse.reverse :=
    List.reverse_prefix.mpr h
  simpa [stripEndList] using h2

theorem pythonStrip_head (s : String) (c : Char) :
    (pythonStrip s).data.head? = some c → isPyWhitespace c = false := by
  intro h
  have hd : (stripEndList (s.data.dropWhile isPyWhitespace)).head? = some c := h
  have h2 : (s.data.dropWhile isPyWhitespace).head? = some c :=
    head?_of_isPrefix (stripEndList_isPrefix _) hd
  exact head?_dropWhile_false isPyWhitespace _ c h2

theorem pythonStrip_getLast (s : String) (c : Char) :
    (pythonStrip s).data.getLast? = some c → isPyWhitespace c = false := by
  intro h
  have hd : (stripEndList (s.data.dropWhile isPyWhitespace)).getLast? = some c := h
  rw [stripEndList, List.getLast?_reverse] at hd
  exact head?_dropWhile_false isPyWhitespace _ c hd

theorem pythonStrip_noEdge (s : String) : noEdgeWhitespace (pythonStrip s) = true := by
  unfold noEdgeWhitespace
  rw [Bool.and_eq_true]
  constructor
  · rcases h : (pythonStrip s).data.head? with _ | c
    · simp
    · have hc := pythonStrip_head s c h
      simp [hc]
  · rcases h : (pythonStrip s).data.getLast? with _ | c
    · simp
    · have hc := pythonStrip_getLast s c h
      simp [hc]

theorem foldl_max_init_le (f : Char → Nat) :
    ∀ (l : List Char) (init : Char),
      f init ≤ f (List.foldl (fun best y => if f best < f y then y else best) init l) := by
  intro l
  induction l with
  | nil => intro init; exact le_refl _
  | cons a t ih =>
      intro init
      simp only [List.foldl_cons]
      by_cases h : f init < f a
      · rw [if_pos h]
        exact le_trans (le_of_lt h) (ih a)
      · rw [if_neg h]
        exact ih init

theorem foldl_max_mem_le (f : Char → Nat) :
    ∀ (l : List Char) (init : Char) (x : Char), x ∈ l →
      f x ≤ f (List.foldl (fun best y => if f best < f y then y else best) init l) := by
  intro l
  induction l with
  | nil => intro init x hx; exact absurd hx (List.not_mem_nil x)
  | cons a t ih =>
      intro init x hx
      simp only [List.foldl_cons]
      rcases List.mem_cons.mp hx with rfl | hx2
      · by_cases h : f init < f x
        · rw [if_pos h]
          exact foldl_max_init_le f t x
        · rw [if_neg h]
          exact le_trans (le_of_not_lt h) (foldl_max_init_le f t init)
      · by_cases h : f init < f a
        · rw [if_pos h]
          exact ih a x hx2
        · rw [if_neg h]
          exact ih init x hx2

theorem foldl_max_mem (f : Char → Nat) :
    ∀ (l : List Char) (init : Char),
      List.foldl (fun best y => if f best < f y then y else best) init l = init ∨
      List.foldl (fun best y => if f best < f y then y else best) init l ∈ l := by
  intro l
  induction l with
  | nil => intro init; left; rfl
  | cons a t ih =>
      intro init
      simp only [List.foldl_cons]
      by_cases h : f init < f a
      · rw [if_pos h]
        rcases ih a with h1 | h1
        · right; rw [h1]; exact List.mem_cons_self a t
        · right; exact List.mem_cons_of_mem a h1
      · rw [if_neg h]
        rcases ih init with h1 | h1
        · left; exact h1
        · right; exact List.mem_cons_of_mem a h1

/- ### Claim theorems: ingestion side -/

/-- C10: every stored cell value of CSVProcessor._save_csv_data is the
whitespace-stripped form of the parsed cell, a missing (None) or empty
parsed cell is stored as the empty string, and stored values never carry
leading or trailing whitespace. -/
theorem saved_cell_values_are_stripped (v : String) :
    savedCellValue (some v) = pythonStrip v ∧
    savedCellValue none = "" ∧
    noEdgeWhitespace (savedCellValue (some v)) = true := by
  have h1 : savedCellValue (some v) = pythonStrip v := by
    by_cases hv : v = ""
    · subst hv; rfl
    · simp [savedCellValue, hv]
  exact ⟨h1, rfl, h1 ▸ pythonStrip_noEdge v⟩

/-- C7: detect_delimiter returns a candidate delimiter whose occurrence
count in the sample is maximal among all candidates (it is a pure function
of the sample, hence deterministic across invocations), and returns comma
whenever every candidate count is zero. -/
theorem detect_delimiter_picks_max (sample : String) :
    detect_delimiter sample ∈ possibleDelimiters ∧
    (∀ d ∈ possibleDelimiters,
      delimiterCount sample d ≤ delimiterCount sample (detect_delimiter sample)) ∧
    ((∀ d ∈ possibleDelimiters, delimiterCount sample d = 0) →
      detect_delimiter sample = ',') := by
  set B := List.foldl
      (fun best y => if delimiterCount sample best < delimiterCount sample y then y else best)
      ',' [';', '\t', '|', ':', ' '] with hBdef
  have hmem : B = ',' ∨ B ∈ [';', '\t', '|', ':', ' '] := foldl_max_mem _ _ _
  have hinit : delimiterCount sample ',' ≤ delimiterCount sample B := foldl_max_init_le _ _ _
  have hall : ∀ x ∈ [';', '\t', '|', ':', ' '],
      delimiterCount sample x ≤ delimiterCount sample B :=
    fun x hx => foldl_max_mem_le _ _ _ x hx
  have hdd : detect_delimiter sample = if delimiterCount sample B = 0 then ',' else B := rfl
  have hBmem : B ∈ possibleDelimiters := by
    rcases hmem with h | h
    · rw [h]; decide
    · simp only [possibleDelimiters]
      exact List.mem_cons_of_mem ',' h
  have hallFull : ∀ d ∈ possibleDelimiters,
      delimiterCount sample d ≤ delimiterCount sample B := by
    intro d hd
    simp only [possibleDelimiters] at hd
    rcases List.mem_cons.mp hd with rfl | hd2
    · exact hinit
    · exact hall d hd2
  refine ⟨?_, ?_, ?_⟩
  · rw [hdd]
    split_ifs with h0
    · decide
    · exact hBmem
  · intro d hd
    rw [hdd]
    split_ifs with h0
    · have := hallFull d hd
      omega
    · exact hallFull d hd
  · intro hz
    rw [hdd, if_pos (hz B hBmem)]

theorem excelColumnsCount_eq (rows : List (List String)) :
    excelColumnsCount rows = csvColumnsCount rows := by
  cases rows with
  | nil => rfl
  | cons r rest =>
      by_cases h : r = []
      · subst h; simp [excelColumnsCount, csvColumnsCount]
      · simp [excelColumnsCount, csvColumnsCount, h]

theorem findColumnMismatch_first (expected : Nat) :
    ∀ (rows : List (List String)) (start i : Nat) (row : List String),
      rows.get? i = some row →
      row.length ≠ expected →
      (∀ j r2, j < i → rows.get? j = some r2 → r2.length = expected) →
      findColumnMismatch expected start rows = some (start + i + 1, row.length) := by
  intro rows
  induction rows with
  | nil =>
      intro start i row hrow
      simp at hrow
  | cons r rest ih =>
      intro start i row hrow hbad hfirst
      cases i with
      | zero =>
          have hr : r = row := by
            have h2 : some r = some row := hrow
            injection h2
          subst hr
          unfold findColumnMismatch
          rw [if_pos hbad]
      | succ n =>
          have hr : r.length = expected := by
            have h0 : (r :: rest).get? 0 = some r := rfl
            exact hfirst 0 r (Nat.succ_pos n) h0
          have hnotbad : ¬ r.length ≠ expected := by
            rw [hr]; exact fun hc => hc rfl
          unfold findColumnMismatch
          rw [if_neg hnotbad]
          have hrec := ih (start + 1) n row hrow hbad
            (fun j r2 hj hr2 => hfirst (j + 1) r2 (Nat.succ_lt_succ hj) hr2)
          rw [hrec]
          have : start + 1 + n + 1 = start + (n + 1) + 1 := by omega
          rw [this]

theorem findColumnMismatch_none (expected : Nat) :
    ∀ (rows : List (List String)) (start : Nat),
      findColumnMismatch expected start rows = none →
      ∀ r ∈ rows, r.length = expected := by
  intro rows
  induction rows with
  | nil =>
      intro start _ r hr
      exact absurd hr (List.not_mem_nil r)
  | cons a t ih =>
      intro start h r hr
      unfold findColumnMismatch at h
      by_cases ha : a.length ≠ expected
      · rw [if_pos ha] at h
        exact absurd h (by simp)
      · rw [if_neg ha] at h
        rcases List.mem_cons.mp hr with rfl | hr2
        · exact not_ne_iff.mp ha
        · exact ih (start + 1) h r hr2

theorem process_csv_completed (rs : List (List String))
    (h : (process_csv_rows rs).status = .completed) :
    ∀ r ∈ rs, r.length = csvColumnsCount rs := by
  by_cases hrs : rs = []
  · subst hrs
    intro r hr
    exact absurd hr (List.not_mem_nil r)
  · rcases hm : findColumnMismatch (csvColumnsCount rs) 0 rs with _ | ⟨rn, act⟩
    · exact findColumnMismatch_none _ rs 0 hm
    · simp [process_csv_rows, hrs, hm] at h

theorem process_excel_completed (rs : List (List String))
    (h : (process_excel_rows rs).status = .completed) :
    ∀ r ∈ rs, r.length = excelColumnsCount rs := by
  by_cases hrs : rs = []
  · subst hrs
    intro r hr
    exact absurd hr (List.not_mem_nil r)
  · rcases hm : findColumnMismatch (excelColumnsCount rs) 0 rs with _ | ⟨rn, act⟩
    · exact findColumnMismatch_none _ rs 0 hm
    · simp [process_excel_rows, hrs, hm] at h

/-- C3: if any parsed row's cell count differs from the first row's cell
count, both processors end the ingestion with dataset status error and a
schema-mismatch error naming the 1-based offending row and the actual and
expected counts; and an ingestion that reaches status completed contains
only rows whose cell count equals the first row's. -/
theorem ingestion_schema_mismatch_fails (rows : List (List String)) (i : Nat)
    (row : List String) (hrow : rows.get? i = some row)
    (hbad : row.length ≠ csvColumnsCount rows)
    (hfirst : ∀ j r2, j < i → rows.get? j = some r2 → r2.length = csvColumnsCount rows) :
    (process_csv_rows rows).status = .error ∧
    (process_csv_rows rows).errorDetail =
      some (.schemaMismatch (i + 1) row.length (csvColumnsCount rows)) ∧
    (process_excel_rows rows).status = .error ∧
    (process_excel_rows rows).errorDetail =
      some (.schemaMismatch (i + 1) row.length (excelColumnsCount rows)) ∧
    (∀ rs : List (List String), (process_csv_rows rs).status = .completed →
      ∀ r ∈ rs, r.length = csvColumnsCount rs) ∧
    (∀ rs : List (List String), (process_excel_rows rs).status = .completed →
      ∀ r ∈ rs, r.length = excelColumnsCount rs) := by
  have hne : rows ≠ [] := by
    intro hempty
    subst hempty
    simp at hrow
  have hmm := findColumnMismatch_first (csvColumnsCount rows) rows 0 i row hrow hbad hfirst
  have hmm2 : findColumnMismatch (csvColumnsCount rows) 0 rows = some (i + 1, row.length) := by
    rw [hmm]
    norm_num
  refine ⟨?_, ?_, ?_, ?_, fun rs h => process_csv_completed rs h,
    fun rs h => process_excel_completed rs h⟩
  · simp [process_csv_rows, hne, hmm2]
  · simp [process_csv_rows, hne, hmm2]
  · simp [process_excel_rows, hne, excelColumnsCount_eq, hmm2]
  · simp [process_excel_rows, hne, excelColumnsCount_eq, hmm2]

/-- Witness for C3 at a concrete two-row input whose second row has one
cell instead of two. -/
theorem ingestion_schema_mismatch_fails_witness :
    (process_csv_rows [["a", "b"], ["c"]]).status = IngestStatus.error ∧
    (process_csv_rows [["a", "b"], ["c"]]).errorDetail =
      some (IngestError.schemaMismatch 2 1 2) := by
  have h := ingestion_schema_mismatch_fails [["a", "b"], ["c"]] 1 ["c"] rfl (by decide)
    (by
      intro j r2 hj hr2
      match j, hj with
      | 0, _ =>
          have h2 : some (α := List String) ["a", "b"] = some r2 := hr2
          injection h2 with h3
          rw [← h3]
          decide
      | n + 1, hj => exact absurd hj (by omega))
  exact ⟨h.1, h.2.1⟩

/- ### Claim theorems: field value resolution -/

theorem pythonFloat_three : pythonFloat "3" = some 3 := by
  have h : pythonFloat "3" = some ((1 : ℚ) * (digitsToNat ['3'] : ℚ)) := rfl
  rw [h, show digitsToNat ['3'] = 3 from by decide]
  norm_num

theorem pythonFloat_abc : pythonFloat "abc" = none := by decide

theorem parseFixedSpec_2f : parseFixedSpec ".2f" = some 2 := by decide

theorem formatFixed_two_three : formatFixed 2 3 = "3.00" := by
  have h1 : ¬ ((3 : ℚ) < 0) := by norm_num
  unfold formatFixed
  rw [if_neg h1]
  unfold formatFixedNonneg
  have h2 : (3 : ℚ) * 10 ^ 2 = 300 := by norm_num
  rw [h2]
  have hf : Rat.floor (300 : ℚ) = 300 := by
    rw [Rat.floor_def']
    norm_num
  have h3 : roundHalfEven 300 = 300 := by
    unfold roundHalfEven
    rw [hf]
    rw [if_pos (by norm_num : (300 : ℚ) - ((300 : ℤ) : ℚ) < 1 / 2)]
  rw [h3]
  decide

/-- C6: with format spec number:.2f, _get_field_value resolves the cell
value 3 to 3.00, and the malformed cell value abc yields a format warning
while the original pre-transform value abc is retained; this holds for
every behaviour of the date and text transforms, which that format string
never reaches. -/
theorem number_format_scenario (dateTransform textTransform : String → String → Option String) :
    get_field_value dateTransform textTransform scenarioEMapping
      (fun c => if c = 1 then some "3" else none) = ("3.00", []) ∧
    get_field_value dateTransform textTransform scenarioEMapping
      (fun c => if c = 1 then some "abc" else none) =
      ("abc", [ResolveWarning.formatError "price"]) := by
  have hdate : strStartsWith "number:.2f" "date:" = false := by decide
  have hnum : strStartsWith "number:.2f" "number:" = true := by decide
  have hdrop : "number:.2f".drop 7 = ".2f" := by decide
  constructor <;>
  · simp [get_field_value, scenarioEMapping, hdate, hnum, hdrop, pythonFloat_three,
      pythonFloat_abc, parseFixedSpec_2f, formatFixed_two_three]

/- ### Claim theorems: generation start preconditions -/

/-- C4: for a pending job, the start is blocked exactly when a field
mapping is missing, the dataset is not completed, or the template is
inactive; a blocked start leaves the job record untouched and pending; and
the standalone (pure) get_generation_errors is empty exactly when the
preconditions hold. -/
theorem start_generation_preconditions
    (run : GenerationState → GenerationState × Except String String)
    (g : GenerationState) (hpend : g.status = GenStatus.pending) :
    ((∃ r, (start_generation run g).2 = StartOutcome.blocked r) ↔
      ¬ (g.hasFieldMappings = true ∧ g.dataSourceStatus = IngestStatus.completed ∧
          g.templateIsActive = true)) ∧
    (∀ r, (start_generation run g).2 = StartOutcome.blocked r →
      (start_generation run g).1 = g ∧ (start_generation run g).1.status = GenStatus.pending) ∧
    (get_generation_errors g = [] ↔
      (g.hasFieldMappings = true ∧ g.dataSourceStatus = IngestStatus.completed ∧
        g.templateIsActive = true)) := by
  have hrunall : g.hasFieldMappings = true → g.dataSourceStatus = IngestStatus.completed →
      g.templateIsActive = true →
      start_generation run g =
        (match run g with
          | (g2, Except.ok fn) => (g2, StartOutcome.finished fn)
          | (g2, Except.error e) =>
              ({ g2 with status := .failed, errorMessage := some e },
                StartOutcome.generationFailed e)) := by
    intro hm hds hta
    simp [start_generation, hpend, hm, hds, hta]
  have hblock1 : g.hasFieldMappings = false →
      start_generation run g = (g, StartOutcome.blocked .noFieldMappings) := by
    intro hm
    simp [start_generation, hpend, hm]
  have hblock2 : g.hasFieldMappings = true → g.dataSourceStatus ≠ IngestStatus.completed →
      start_generation run g = (g, StartOutcome.blocked .dataSourceNotReady) := by
    intro hm hds
    simp [start_generation, hpend, hm, hds]
  have hblock3 : g.hasFieldMappings = true → g.dataSourceStatus = IngestStatus.completed →
      g.templateIsActive = false →
      start_generation run g = (g, StartOutcome.blocked .templateInactive) := by
    intro hm hds hta
    simp [start_generation, hpend, hm, hds, hta]
  refine ⟨⟨?_, ?_⟩, ?_, ⟨?_, ?_⟩⟩
  · rintro ⟨r, hr⟩ ⟨hm, hds, hta⟩
    rw [hrunall hm hds hta] at hr
    rcases hrun2 : run g with ⟨g2, res⟩
    rw [hrun2] at hr
    cases res <;> simp at hr
  · intro hnall
    by_cases hm : g.hasFieldMappings = true
    · by_cases hds : g.dataSourceStatus = IngestStatus.completed
      · have hta : g.templateIsActive = false :=
          Bool.eq_false_iff.mpr (fun hta => hnall ⟨hm, hds, hta⟩)
        exact ⟨.templateInactive, by rw [hblock3 hm hds hta]⟩
      · exact ⟨.dataSourceNotReady, by rw [hblock2 hm hds]⟩
    · exact ⟨.noFieldMappings, by rw [hblock1 (Bool.eq_false_iff.mpr hm)]⟩
  · intro r hr
    by_cases hm : g.hasFieldMappings = true
    · by_cases hds : g.dataSourceStatus = IngestStatus.completed
      · by_cases hta : g.templateIsActive = true
        · exfalso
          rw [hrunall hm hds hta] at hr
          rcases hrun2 : run g with ⟨g2, res⟩
          rw [hrun2] at hr
          cases res <;> simp at hr
        · rw [hblock3 hm hds (Bool.eq_false_iff.mpr hta)]
          exact ⟨rfl, hpend⟩
      · rw [hblock2 hm hds]
        exact ⟨rfl, hpend⟩
    · rw [hblock1 (Bool.eq_false_iff.mpr hm)]
      exact ⟨rfl, hpend⟩
  · intro hnil
    by_cases hm : g.hasFieldMappings = true
    · by_cases hds : g.dataSourceStatus = IngestStatus.completed
      · by_cases hta : g.templateIsActive = true
        · exact ⟨hm, hds, hta⟩
        · exfalso
          simp [get_generation_errors, hpend, hm, hds, Bool.eq_false_iff.mpr hta] at hnil
      · exfalso
        simp [get_generation_errors, hpend, hm, hds] at hnil
    · exfalso
      simp [get_generation_errors, hpend, Bool.eq_false_iff.mpr hm] at hnil
  · rintro ⟨hm, hds, hta⟩
    simp [get_generation_errors, hpend, hm, hds, hta]

/-- Witness for C4 on a concrete pending job without field mappings. -/
theorem start_generation_preconditions_witness :
    (∃ r, (start_generation runAlwaysOk pendingJobMissingMappings).2 =
      StartOutcome.blocked r) ∧
    get_generation_errors pendingJobMissingMappings ≠ [] := by
  have h := start_generation_preconditions runAlwaysOk pendingJobMissingMappings rfl
  refine ⟨h.1.mpr (by decide), fun hnil => ?_⟩
  exact absurd (h.2.2.mp hnil).1 (by decide)

/- ### Claim theorems: row-range validation vs starting -/

/-- C9 counterexample: a pending job with start_row 3 greater than
end_row 2 is NOT blocked from starting; get_generation_errors reports no
reason at all and start_generation runs the generator, so the status does
not stay pending. -/
theorem start_row_range_not_checked_at_start :
    jobRowsBackwards.startRow = 3 ∧ jobRowsBackwards.endRow = some 2 ∧
    get_generation_errors jobRowsBackwards = [] ∧
    (start_generation runAlwaysOk jobRowsBackwards).2 = StartOutcome.finished "labels.pdf" ∧
    (start_generation runAlwaysOk jobRowsBackwards).1.status = GenStatus.completed := by
  decide

/-- C9 amended: the start-row-greater-than-end-row condition is enforced by
model validation, LabelGeneration.clean, which reports exactly that reason;
the start-precondition check ignores the row range entirely (its result is
invariant under changing start_row and end_row). -/
theorem clean_rejects_backwards_row_range (g : GenerationState) (e : Nat)
    (he : g.endRow = some e) (he0 : e ≠ 0) (hlt : e < g.startRow) :
    generation_clean g = some GenCleanError.startRowGreaterThanEndRow ∧
    (∀ a b, get_generation_errors { g with startRow := a, endRow := b } =
      get_generation_errors g) := by
  constructor
  · have hsr : g.startRow ≠ 0 := by omega
    have hcond : endRowExceeded g = true := by
      simp [endRowExceeded, he, he0, hlt]
    simp [generation_clean, hsr, hcond]
  · intro a b
    rfl

/-- Witness for the amended C9 at the concrete backwards-range job. -/
theorem clean_rejects_backwards_row_range_witness :
    generation_clean jobRowsBackwards = some GenCleanError.startRowGreaterThanEndRow :=
  (clean_rejects_backwards_row_range jobRowsBackwards 2 rfl (by decide) (by decide)).1

/- ### Claim theorems: template geometry validation -/

/-- C5 counterexample: a template violating the margins-plus-print bound on
the horizontal axis passes LabelTemplate.clean, because that check only
runs when both margins of the axis are nonzero. -/
theorem margin_overflow_passes_validation :
    template_clean lopsidedMarginTemplate = none ∧
    lopsidedMarginTemplate.layoutWidthMm <
      lopsidedMarginTemplate.marginLeftMm + lopsidedMarginTemplate.marginRightMm +
        lopsidedMarginTemplate.printWidthMm := by
  decide

/-- C5 amended: a template passing validation satisfies the geometry
invariants only under the truthiness guards of clean: print dimension at
most layout dimension whenever both are nonzero, and margins plus print at
most layout on an axis whenever both margins (and both dimensions) of that
axis are nonzero. -/
theorem template_clean_guarded_invariants (t : LabelTemplateM)
    (h : template_clean t = none) :
    (t.printWidthMm ≠ 0 → t.layoutWidthMm ≠ 0 → t.printWidthMm ≤ t.layoutWidthMm) ∧
    (t.printHeightMm ≠ 0 → t.layoutHeightMm ≠ 0 → t.printHeightMm ≤ t.layoutHeightMm) ∧
    (t.marginLeftMm ≠ 0 → t.marginRightMm ≠ 0 → t.layoutWidthMm ≠ 0 → t.printWidthMm ≠ 0 →
      t.marginLeftMm + t.marginRightMm + t.printWidthMm ≤ t.layoutWidthMm) ∧
    (t.marginTopMm ≠ 0 → t.marginBottomMm ≠ 0 → t.layoutHeightMm ≠ 0 → t.printHeightMm ≠ 0 →
      t.marginTopMm + t.marginBottomMm + t.printHeightMm ≤ t.layoutHeightMm) := by
  unfold template_clean at h
  split_ifs at h with h1 h2 h3 h4
  refine ⟨?_, ?_, ?_, ?_⟩
  · intro hp hl
    by_contra hlt
    exact h1 ⟨hp, hl, by omega⟩
  · intro hp hl
    by_contra hlt
    exact h2 ⟨hp, hl, by omega⟩
  · intro hml hmr hl hp
    by_contra hlt
    exact h3 ⟨hml, hmr, hl, hp, by omega⟩
  · intro hmt hmb hl hp
    by_contra hlt
    exact h4 ⟨hmt, hmb, hl, hp, by omega⟩

/-- Witness for the amended C5 at the scenario B template. -/
theorem template_clean_guarded_invariants_witness :
    scenarioBTemplate.printWidthMm ≤ scenarioBTemplate.layoutWidthMm ∧
    scenarioBTemplate.marginLeftMm + scenarioBTemplate.marginRightMm +
      scenarioBTemplate.printWidthMm ≤ scenarioBTemplate.layoutWidthMm := by
  have h := template_clean_guarded_invariants scenarioBTemplate (by decide)
  exact ⟨h.1 (by decide) (by decide), h.2.2.1 (by decide) (by decide) (by decide) (by decide)⟩

/- ### Claim theorems: the generation run (row loop of generate_pdf) -/

theorem processRows_story (hasBackground : Bool) (total : Nat) :
    ∀ (outs : List (Except String (List α))) (i : Nat) (acc : LoopAcc α),
      (processRows hasBackground total i acc outs).story =
        acc.story ++ storyChunks hasBackground total i outs := by
  intro outs
  induction outs with
  | nil => intro i acc; simp [processRows, storyChunks]
  | cons o rest ih =>
      intro i acc
      cases o with
      | error e => simp [processRows, storyChunks, rowChunk, ih, processRow]
      | ok items => simp [processRows, storyChunks, rowChunk, ih, processRow]

theorem processRows_logs (hasBackground : Bool) (total : Nat) :
    ∀ (outs : List (Except String (List α))) (i : Nat) (acc : LoopAcc α),
      (processRows hasBackground total i acc outs).logs =
        acc.logs ++ logChunks total i outs := by
  intro outs
  induction outs with
  | nil => intro i acc; simp [processRows, logChunks]
  | cons o rest ih =>
      intro i acc
      cases o with
      | error e => simp [processRows, logChunks, logChunk, ih, processRow]
      | ok items => simp [processRows, logChunks, logChunk, ih, processRow]

theorem processRows_composites (hasBackground : Bool) (total : Nat) :
    ∀ (outs : List (Except String (List α))) (i : Nat) (acc : LoopAcc α),
      (processRows hasBackground total i acc outs).composites =
        acc.composites + (if hasBackground then outs.length else 0) := by
  intro outs
  induction outs with
  | nil => intro i acc; simp [processRows]
  | cons o rest ih =>
      intro i acc
      cases o <;> cases hasBackground <;>
        simp [processRows, processRow, ih] <;> omega

theorem generate_pdf_story (hasBackground : Bool) (outs : List (Except String (List α))) :
    (generate_pdf hasBackground outs).story = storyChunks hasBackground outs.length 0 outs := by
  simp [generate_pdf, processRows_story]

theorem generate_pdf_logs (hasBackground : Bool) (outs : List (Except String (List α))) :
    (generate_pdf hasBackground outs).logs =
      [(LogLevel.info, LogMessage.startGeneration),
        (LogLevel.info, LogMessage.loadedRows outs.length)] ++
        logChunks outs.length 0 outs ++
        [(LogLevel.info, LogMessage.buildingDocument), (LogLevel.info, LogMessage.finished)] := by
  simp [generate_pdf, processRows_logs]

theorem generate_pdf_composites (hasBackground : Bool) (outs : List (Except String (List α))) :
    (generate_pdf hasBackground outs).compositeCount =
      (if hasBackground then outs.length else 0) := by
  simp [generate_pdf, processRows_composites]

theorem isErrorEntry_info (m : LogMessage) : isErrorEntry (LogLevel.info, m) = false := rfl

theorem isErrorEntry_error (m : LogMessage) : isErrorEntry (LogLevel.error, m) = true := rfl

theorem logChunk_ok_filter (total i : Nat) (xs : List α) :
    (logChunk total i (Except.ok xs)).filter isErrorEntry = [] := by
  unfold logChunk
  by_cases hp : progressDue total i
  · simp [hp, isErrorEntry_info]
  · simp [hp]

theorem logChunks_filter_no_error (total : Nat) :
    ∀ (outs : List (Except String (List α))) (i : Nat),
      (∀ o ∈ outs, ∃ xs, o = Except.ok xs) →
      (logChunks total i outs).filter isErrorEntry = [] := by
  intro outs
  induction outs with
  | nil => intro i _; rfl
  | cons o rest ih =>
      intro i hok
      obtain ⟨xs, rfl⟩ := hok o (List.mem_cons_self o rest)
      have hrest := ih (i + 1) (fun o2 ho2 => hok o2 (List.mem_cons_of_mem _ ho2))
      simp [logChunks, List.filter_append, logChunk_ok_filter, hrest]

theorem logChunks_filter_single_error (total : Nat) :
    ∀ (outs : List (Except String (List α))) (i k : Nat) (e : String),
      outs.get? k = some (Except.error e) →
      (∀ j o, outs.get? j = some o → j ≠ k → ∃ xs, o = Except.ok xs) →
      (logChunks total i outs).filter isErrorEntry =
        [(LogLevel.error, LogMessage.rowError (i + k + 1))] := by
  intro outs
  induction outs with
  | nil => intro i k e hk; simp at hk
  | cons o rest ih =>
      intro i k e hk hother
      cases k with
      | zero =>
          have ho : o = Except.error e := by
            have h2 : some o = some (Except.error e) := hk
            injection h2
          subst ho
          have hrest : ∀ o2 ∈ rest, ∃ xs, o2 = Except.ok xs := by
            intro o2 ho2
            obtain ⟨j, hj⟩ := List.mem_iff_get?.mp ho2
            exact hother (j + 1) o2 hj (by omega)
          have hfr := logChunks_filter_no_error total rest (i + 1) hrest
          simp [logChunks, logChunk, List.filter_append, isErrorEntry_error, hfr]
      | succ k2 =>
          obtain ⟨xs, rfl⟩ := hother 0 o rfl (by omega)
          have hk2 : rest.get? k2 = some (Except.error e) := hk
          have hother2 : ∀ j o2, rest.get? j = some o2 → j ≠ k2 → ∃ xs, o2 = Except.ok xs :=
            fun j o2 hj hne => hother (j + 1) o2 hj (by omega)
          have hrec := ih (i + 1) k2 e hk2 hother2
          have harith : i + 1 + k2 + 1 = i + (k2 + 1) + 1 := by omega
          rw [harith] at hrec
          simp [logChunks, List.filter_append, logChunk_ok_filter, hrec]

/-- C1: when the field-rendering of exactly one row (0-based index k)
raises and every other row renders, generate_pdf still finishes with status
completed and progress 100, the log carries exactly one error entry and it
names row k plus one, and the story consists of the per-row contributions,
so processing continued past the failing row. -/
theorem generation_partial_failure_isolation {α : Type} (hasBackground : Bool)
    (outs : List (Except String (List α))) (k : Nat) (e : String)
    (hk : outs.get? k = some (Except.error e))
    (hother : ∀ j o, outs.get? j = some o → j ≠ k → ∃ xs, o = Except.ok xs) :
    (generate_pdf hasBackground outs).status = GenStatus.completed ∧
    (generate_pdf hasBackground outs).progressPercent = 100 ∧
    ((generate_pdf hasBackground outs).logs.filter isErrorEntry) =
      [(LogLevel.error, LogMessage.rowError (k + 1))] ∧
    (generate_pdf hasBackground outs).story = storyChunks hasBackground outs.length 0 outs := by
  refine ⟨rfl, rfl, ?_, generate_pdf_story hasBackground outs⟩
  rw [generate_pdf_logs]
  have hmid := logChunks_filter_single_error outs.length outs 0 k e hk hother
  simp [List.filter_append, isErrorEntry_info, hmid]

/-- Witness for C1 at a three-row run whose second row fails. -/
theorem generation_partial_failure_isolation_witness :
    (generate_pdf true demoRowOutcomes).status = GenStatus.completed ∧
    ((generate_pdf true demoRowOutcomes).logs.filter isErrorEntry) =
      [(LogLevel.error, LogMessage.rowError 2)] := by
  have h := generation_partial_failure_isolation true demoRowOutcomes 1 "boom" rfl ?hother
  · exact ⟨h.1, h.2.2.1⟩
  case hother =>
    intro j o hj hne
    match j, hj, hne with
    | 0, hj, _ =>
        injection hj with h3
        exact ⟨[0], h3.symm⟩
    | 1, _, hne => exact absurd rfl hne
    | 2, hj, _ =>
        injection hj with h3
        exact ⟨[1], h3.symm⟩
    | n + 3, hj, _ => exact absurd hj (by simp [demoRowOutcomes])

/-- C8 counterexample: with a background present and two rendered rows, the
scaled background composite is built twice in one run — once per row — not
once per run. -/
theorem background_composited_per_row :
    (generate_pdf true [Except.ok [()], Except.ok [()]] :
      GenerationRun Unit).compositeCount = 2 ∧ (2 : Nat) ≠ 1 :=
  ⟨rfl, by omega⟩

/-- C8 amended: the background file itself is loaded exactly once per run
(before the loop), but the scaled composite flowable is rebuilt inside the
loop for every row: with a background the composite count equals the number
of rows, and without one it is zero. -/
theorem background_load_once_composite_per_row {α : Type}
    (outs : List (Except String (List α))) :
    (generate_pdf true outs).backgroundLoadCount = 1 ∧
    (generate_pdf false outs).backgroundLoadCount = 1 ∧
    (generate_pdf true outs).compositeCount = outs.length ∧
    (generate_pdf false outs).compositeCount = 0 := by
  refine ⟨rfl, rfl, ?_, ?_⟩
  · rw [generate_pdf_composites]
    simp
  · rw [generate_pdf_composites]
    simp

/- ### Claim theorems: background compositor geometry -/

theorem ratFloor_eq_intFloor (q : ℚ) : (Rat.floor q : ℤ) = ⌊q⌋ :=
  (Rat.floor_def' q).trans Rat.floor_def.symm

theorem pyInt_eq_floor (q : ℚ) (h : 0 ≤ q) : pyInt q = ⌊q⌋ := by
  unfold pyInt
  rw [if_pos h, ratFloor_eq_intFloor]

theorem pyIntScaled_floor_bounds (o : Nat) (t s : ℚ) (ho : 0 < o) (hs : 0 ≤ s)
    (hst : s ≤ t / (o : ℚ)) :
    pyInt ((o : ℚ) * s) = ⌊(o : ℚ) * s⌋ ∧
    ((pyInt ((o : ℚ) * s) : ℚ)) ≤ t ∧
    pyInt ((t - (pyInt ((o : ℚ) * s) : ℚ)) / 2) =
      ⌊(t - (pyInt ((o : ℚ) * s) : ℚ)) / 2⌋ ∧
    0 ≤ pyInt ((t - (pyInt ((o : ℚ) * s) : ℚ)) / 2) := by
  have hqo : (0 : ℚ) < (o : ℚ) := by exact_mod_cast ho
  have hnw0 : 0 ≤ (o : ℚ) * s := mul_nonneg hqo.le hs
  have h1 : pyInt ((o : ℚ) * s) = ⌊(o : ℚ) * s⌋ := pyInt_eq_floor _ hnw0
  have hle : (o : ℚ) * s ≤ t := by
    have hm : (o : ℚ) * s ≤ (o : ℚ) * (t / (o : ℚ)) :=
      mul_le_mul_of_nonneg_left hst hqo.le
    have he : (o : ℚ) * (t / (o : ℚ)) = t := by
      field_simp
    rw [he] at hm
    exact hm
  have h2 : ((pyInt ((o : ℚ) * s) : ℚ)) ≤ t := by
    rw [h1]
    exact le_trans (Int.floor_le _) hle
  have hoff0 : 0 ≤ (t - (pyInt ((o : ℚ) * s) : ℚ)) / 2 :=
    div_nonneg (sub_nonneg.mpr h2) (by norm_num)
  refine ⟨h1, h2, pyInt_eq_floor _ hoff0, ?_⟩
  rw [pyInt_eq_floor _ hoff0]
  exact Int.floor_nonneg.mpr hoff0

/-- C2 counterexample: a 3 by 4 pixel image composited onto a 10 by 10
point canvas gets the uniform scale 5/2, a truncated scaled width of 7
pixels and a truncated centring offset of 1 pixel, whereas the exact
centring offset of the claim would be 3/2: the raster path truncates sizes
and offsets with int(), so the stated equality fails. -/
theorem raster_centering_truncated :
    (mkRasterBackground 3 4 10 10).scale = 5 / 2 ∧
    (mkRasterBackground 3 4 10 10).newWidthPx = 7 ∧
    (mkRasterBackground 3 4 10 10).xOffsetPx = 1 ∧
    ((10 : ℚ) - ((mkRasterBackground 3 4 10 10).newWidthPx : ℚ)) / 2 = 3 / 2 ∧
    ((mkRasterBackground 3 4 10 10).xOffsetPx : ℚ) ≠
      ((10 : ℚ) - ((mkRasterBackground 3 4 10 10).newWidthPx : ℚ)) / 2 := by
  have hmin : min ((10 : ℚ) / ((3 : ℕ) : ℚ)) ((10 : ℚ) / ((4 : ℕ) : ℚ)) = 5 / 2 := by
    rw [min_def]
    norm_num
  have hscale : (mkRasterBackground 3 4 10 10).scale = 5 / 2 := by
    show min ((10 : ℚ) / ((3 : ℕ) : ℚ)) ((10 : ℚ) / ((4 : ℕ) : ℚ)) = 5 / 2
    exact hmin
  have h7 : pyInt (((3 : ℕ) : ℚ) *
      min ((10 : ℚ) / ((3 : ℕ) : ℚ)) ((10 : ℚ) / ((4 : ℕ) : ℚ))) = 7 := by
    rw [hmin]
    rw [show ((3 : ℕ) : ℚ) * (5 / 2) = 15 / 2 from by norm_num]
    rw [pyInt_eq_floor _ (by norm_num)]
    refine Int.floor_eq_iff.mpr ⟨by norm_num, by norm_num⟩
  have hnw : (mkRasterBackground 3 4 10 10).newWidthPx = 7 := by
    show pyInt (((3 : ℕ) : ℚ) *
      min ((10 : ℚ) / ((3 : ℕ) : ℚ)) ((10 : ℚ) / ((4 : ℕ) : ℚ))) = 7
    exact h7
  have hxoff : (mkRasterBackground 3 4 10 10).xOffsetPx = 1 := by
    show pyInt (((10 : ℚ) - (pyInt (((3 : ℕ) : ℚ) *
      min ((10 : ℚ) / ((3 : ℕ) : ℚ)) ((10 : ℚ) / ((4 : ℕ) : ℚ))) : ℚ)) / 2) = 1
    rw [h7]
    rw [show ((10 : ℚ) - ((7 : ℤ) : ℚ)) / 2 = 3 / 2 from by norm_num]
    rw [pyInt_eq_floor _ (by norm_num)]
    refine Int.floor_eq_iff.mpr ⟨by norm_num, by norm_num⟩
  refine ⟨hscale, hnw, hxoff, ?_, ?_⟩
  · rw [hnw]
    norm_num
  · rw [hnw, hxoff]
    norm_num

/-- C2 amended: both compositing paths use the uniform scale
min of the per-axis target-over-source ratios, so the aspect ratio is
preserved; the vector path centres exactly with offsets half the leftover
space; the raster path computes the same quantities but truncated through
int(): its pixel sizes and offsets are the floors of the corresponding
exact values, the offsets are nonnegative and the scaled image fits the
canvas. -/
theorem background_scale_and_centering (ow oh tw th : ℚ) (owPx ohPx : Nat)
    (how : 0 < ow) (hoh : 0 < oh) (howp : 0 < owPx) (hohp : 0 < ohPx)
    (htw : 0 ≤ tw) (hth : 0 ≤ th) :
    (mkVectorBackground ow oh tw th).scale = min (tw / ow) (th / oh) ∧
    (mkRasterBackground owPx ohPx tw th).scale =
      min (tw / (owPx : ℚ)) (th / (ohPx : ℚ)) ∧
    (mkVectorBackground ow oh tw th).newWidth * oh =
      (mkVectorBackground ow oh tw th).newHeight * ow ∧
    (mkVectorBackground ow oh tw th).xOffset =
      (tw - (mkVectorBackground ow oh tw th).newWidth) / 2 ∧
    (mkVectorBackground ow oh tw th).yOffset =
      (th - (mkVectorBackground ow oh tw th).newHeight) / 2 ∧
    (mkVectorBackground ow oh tw th).xOffset * 2 +
      (mkVectorBackground ow oh tw th).newWidth = tw ∧
    (mkVectorBackground ow oh tw th).yOffset * 2 +
      (mkVectorBackground ow oh tw th).newHeight = th ∧
    (mkRasterBackground owPx ohPx tw th).newWidthPx =
      ⌊(owPx : ℚ) * (mkRasterBackground owPx ohPx tw th).scale⌋ ∧
    (mkRasterBackground owPx ohPx tw th).xOffsetPx =
      ⌊(tw - ((mkRasterBackground owPx ohPx tw th).newWidthPx : ℚ)) / 2⌋ ∧
    0 ≤ (mkRasterBackground owPx ohPx tw th).xOffsetPx ∧
    ((mkRasterBackground owPx ohPx tw th).newWidthPx : ℚ) ≤ tw ∧
    (mkRasterBackground owPx ohPx tw th).newHeightPx =
      ⌊(ohPx : ℚ) * (mkRasterBackground owPx ohPx tw th).scale⌋ ∧
    (mkRasterBackground owPx ohPx tw th).yOffsetPx =
      ⌊(th - ((mkRasterBackground owPx ohPx tw th).newHeightPx : ℚ)) / 2⌋ ∧
    0 ≤ (mkRasterBackground owPx ohPx tw th).yOffsetPx ∧
    ((mkRasterBackground owPx ohPx tw th).newHeightPx : ℚ) ≤ th := by
  have hqw : (0 : ℚ) < (owPx : ℚ) := by exact_mod_cast howp
  have hqh : (0 : ℚ) < (ohPx : ℚ) := by exact_mod_cast hohp
  have hs0 : 0 ≤ min (tw / (owPx : ℚ)) (th / (ohPx : ℚ)) :=
    le_min (div_nonneg htw hqw.le) (div_nonneg hth hqh.le)
  have hx := pyIntScaled_floor_bounds owPx tw
    (min (tw / (owPx : ℚ)) (th / (ohPx : ℚ))) howp hs0 (min_le_left _ _)
  have hy := pyIntScaled_floor_bounds ohPx th
    (min (tw / (owPx : ℚ)) (th / (ohPx : ℚ))) hohp hs0 (min_le_right _ _)
  have hvw : (mkVectorBackground ow oh tw th).newWidth =
      ow * min (tw / ow) (th / oh) := rfl
  have hvh : (mkVectorBackground ow oh tw th).newHeight =
      oh * min (tw / ow) (th / oh) := rfl
  have hvx : (mkVectorBackground ow oh tw th).xOffset =
      (tw - ow * min (tw / ow) (th / oh)) / 2 := rfl
  have hvy : (mkVectorBackground ow oh tw th).yOffset =
      (th - oh * min (tw / ow) (th / oh)) / 2 := rfl
  refine ⟨rfl, rfl, ?_, rfl, rfl, ?_, ?_,
    hx.1, hx.2.2.1, hx.2.2.2, hx.2.1, hy.1, hy.2.2.1, hy.2.2.2, hy.2.1⟩
  · rw [hvw, hvh]
    ring
  · rw [hvx, hvw]
    ring
  · rw [hvy, hvh]
    ring

/-- Witness for the amended C2 at a 2 by 1 source and a 4 by 4 target. -/
theorem background_scale_and_centering_witness :
    (mkVectorBackground 2 1 4 4).scale = min ((4 : ℚ) / 2) ((4 : ℚ) / 1) ∧
    0 ≤ (mkRasterBackground 2 1 4 4).xOffsetPx := by
  have h := background_scale_and_centering 2 1 4 4 2 1 (by norm_num) (by norm_num)
    (by norm_num) (by norm_num) (by norm_num) (by norm_num)
  obtain ⟨h1, h2, h3, h4, h5, h6, h7, h8, h9, h10, hrest⟩ := h
  exact ⟨h1, h10⟩
